import Mathlib

/-!
# Verification of the reflexityai/backend ingestion pipeline

Shallow embedding of `src/main.py`: the name sanitizer `sanitize_string`,
the file validator and table-name derivation inside `process_uploaded_file`,
the verification step after the bulk write, and the `/api/upload-webhook`
handler with its exception flow.  Python strings are modelled as lists of
code points (`List Nat`); Python exceptions are modelled with `Except`.
-/

/-- A Python string, as its list of code points. -/
abbrev Str := List Nat

/-- Code points of a Lean string literal, to write concrete inputs readably. -/
def ofString (s : String) : Str := s.data.map Char.toNat

/-- The regex class `[a-zA-Z0-9]` of `re.sub(r'[^a-zA-Z0-9]', '_', ...)`
in `sanitize_string` (src/main.py line 49). -/
def isAlnumChar (c : Nat) : Bool :=
  decide ((97 ≤ c ∧ c ≤ 122) ∨ (65 ≤ c ∧ c ≤ 90) ∨ (48 ≤ c ∧ c ≤ 57))

/-- A character the sanitizer may emit: `[A-Za-z0-9_]` (95 is `_`). -/
def isSanitaryChar (c : Nat) : Bool := isAlnumChar c || decide (c = 95)

/-- Python `str.lower()` per code point, faithful on the ASCII range the
sanitized strings and file extensions live in. -/
def toLowerChar (c : Nat) : Nat := if 65 ≤ c ∧ c ≤ 90 then c + 32 else c

/-- Python `str.lower()` on a whole string. -/
def toLowerStr (s : Str) : Str := s.map toLowerChar

/-- `re.sub(r'[^a-zA-Z0-9]', '_', input_string)` (src/main.py line 49). -/
def replaceNonAlnum (s : Str) : Str := s.map (fun c => if isAlnumChar c then c else 95)

/-- `re.sub(r'_+', '_', sanitized)` (src/main.py line 51): each maximal
run of underscores becomes a single underscore. -/
def collapseUnderscores : Str → Str
  | [] => []
  | [c] => [c]
  | c :: d :: rest =>
    if c = 95 ∧ d = 95 then collapseUnderscores (d :: rest)
    else c :: collapseUnderscores (d :: rest)

/-- Python `sanitized.strip('_')` (src/main.py line 53). -/
def stripUnderscores (s : Str) : Str :=
  ((s.dropWhile (fun c => c == 95)).reverse.dropWhile (fun c => c == 95)).reverse

/-- `sanitize_string` from src/main.py lines 36-56. -/
def sanitize_string (input_string : Str) (to_lowercase : Bool) : Str :=
  let sanitized := replaceNonAlnum input_string
  let collapsed := collapseUnderscores sanitized
  let stripped := stripUnderscores collapsed
  if to_lowercase then toLowerStr stripped else stripped

/-- Python `s.split(sep)` for a one-character separator: splits on every
occurrence without collapsing, and the empty string yields `[""]`. -/
def splitOn (sep : Nat) : Str → List Str
  | [] => [[]]
  | c :: rest =>
    match splitOn sep rest with
    | [] => [[]]
    | t :: ts => if c = sep then [] :: t :: ts else (c :: t) :: ts

/-- Python `"/".join(tokens)` (src/main.py line 135), 47 is `/`. -/
def joinSlash : List Str → Str
  | [] => []
  | [t] => t
  | t :: ts => t ++ 47 :: joinSlash ts

/-- `file_name.lower().split('.')[-1]` (src/main.py line 179): the
extension is the substring after the last dot of the lowercased name;
a dotless name yields the whole lowercased name. -/
def file_extension_of (file_name : Str) : Str :=
  (splitOn 46 (toLowerStr file_name)).getLastD []

def csvExt : Str := ofString ("csv")

def xlsxExt : Str := ofString ("xlsx")

def xlsExt : Str := ofString ("xls")

/-- A raised `fastapi.HTTPException(status_code, detail)`. -/
structure HTTPExcept where
  status_code : Nat
  detail : Str
  deriving DecidableEq

/-- Decimal rendering of a `Nat`, as Python `str(n)` inside an f-string
interpolation of a status code; fueled so it evaluates by `decide`. -/
def natDecAux : Nat → Nat → Str
  | 0, _ => []
  | fuel + 1, n => if n < 10 then [48 + n] else natDecAux fuel (n / 10) ++ [48 + n % 10]

/-- Python `str(n)` for a natural number. -/
def strOfNat (n : Nat) : Str := natDecAux (n + 1) n

/-- A Python exception as the handlers see it: either an `HTTPException`
(whose `str()` is `"STATUS: detail"`) or any other exception rendered
by its message. -/
inductive PyExc where
  | http (e : HTTPExcept)
  | other (msg : Str)
  deriving DecidableEq

/-- Python `str(e)` on an exception: starlette `HTTPException.__str__`
is `f"STATUS: detail"`; other exceptions render as their message. -/
def strOfExc : PyExc → Str
  | .http e => strOfNat e.status_code ++ ofString (": ") ++ e.detail
  | .other m => m

/-- The parsed tabular payload: what the pipeline observes of the pandas
DataFrame (`len(df)` and `list(df.columns)`). -/
structure DataFrame where
  nrows : Nat
  columns : List Str
  deriving DecidableEq

/-- Outcomes of the external effects one ingestion performs, so the
control flow of `process_uploaded_file` is a function of them: the
storage download, `pd.read_csv` / `pd.read_excel` on the downloaded
bytes, `ensure_raw_schema` and `get_sqlalchemy_engine` (which raise
`HTTPException(500, ...)` themselves on failure), `datetime.now()`
formatted as the timestamp, and `df.to_sql` (its returned row count, or
the raised database error's message). -/
structure Env where
  download : Except Str Unit
  read_csv : Except Str DataFrame
  read_excel : Except Str DataFrame
  ensure_schema : Except HTTPExcept Unit
  engine : Except HTTPExcept Unit
  timestamp : Str
  to_sql : Except Str Nat

/-- Step 1 of `process_uploaded_file` (src/main.py lines 176-185):
reject an empty name, then reject an extension outside csv/xlsx/xls. -/
def validate_file (file_name : Str) : Except HTTPExcept Str :=
  if file_name = [] then
    .error ⟨400, ofString ("No file name provided")⟩
  else
    let file_extension := file_extension_of file_name
    if file_extension ∈ [csvExt, xlsxExt, xlsExt] then .ok file_extension
    else .error ⟨400, ofString ("Unsupported file type: ") ++ file_extension
                      ++ ofString (". Please upload CSV or Excel files only.")⟩

/-- Step 3 of `process_uploaded_file` (src/main.py lines 196-205): csv
via `pd.read_csv`, xlsx via `pd.read_excel`, and everything else —
including xls, which the validator accepted — raises an unsupported-file
`HTTPException(400, ...)`. -/
def parseStep (file_extension : Str) (env : Env) : Except PyExc DataFrame :=
  if file_extension = csvExt then
    match env.read_csv with
    | .ok df => .ok df
    | .error m => .error (.other m)
  else if file_extension = xlsxExt then
    match env.read_excel with
    | .ok df => .ok df
    | .error m => .error (.other m)
  else
    .error (.http ⟨400, ofString ("Unsupported file type. Please upload CSV or Excel files only.")⟩)

/-- Step 5 of `process_uploaded_file` (src/main.py lines 211-215):
`filename_with_ext = file_name.split('/')[-1]` then
`table_name = f"raw_" + sanitize_string(filename_with_ext) + "_" + timestamp`. -/
def filename_with_ext (file_name : Str) : Str := (splitOn 47 file_name).getLastD []

def table_name_of (file_name timestamp : Str) : Str :=
  ofString ("raw_") ++ sanitize_string (filename_with_ext file_name) true
    ++ ofString ("_") ++ timestamp

/-- The success payload built at step 8 (src/main.py lines 250-258). -/
structure WebhookIngestResponse where
  message : Str
  table_name : Str
  rows_processed : Nat
  columns : List Str
  file_name : Str
  verified_rows : Nat
  source : Str
  deriving DecidableEq

/-- Steps 7a-8 inside the inner `try` (src/main.py lines 227-261): run
`df.to_sql`, then the verification step — full success when the reported
count equals `len(df)`, a logged warning when it is non-zero but
different, and a raised `HTTPException(500, ...)` only when the count is
zero and `len(df)` is not — then build the success response. -/
def dbTry (table_name : Str) (df : DataFrame) (cleaned_columns : List Str)
    (file_name : Str) (env : Env) : Except PyExc WebhookIngestResponse :=
  match env.to_sql with
  | .error m => .error (.other m)
  | .ok result =>
    let response : WebhookIngestResponse :=
      { message := ofString ("File ingested successfully")
        table_name := table_name
        rows_processed := df.nrows
        columns := cleaned_columns
        file_name := file_name
        verified_rows := result
        source := ofString ("webhook") }
    if result = df.nrows then .ok response
    else if result ≠ 0 then .ok response
    else .error (.http ⟨500, ofString ("File ") ++ file_name
                  ++ ofString (" processing failed. Table: ") ++ table_name⟩)

/-- The inner `try/except/finally` around the database operations
(src/main.py lines 227-267): any exception — including the verification
failure's own `HTTPException` — is re-raised as
`HTTPException(500, f"Database operation failed: " + str(e))`; the
`finally` only disposes the engine. -/
def dbBlock (table_name : Str) (df : DataFrame) (cleaned_columns : List Str)
    (file_name : Str) (env : Env) : Except PyExc WebhookIngestResponse :=
  match dbTry table_name df cleaned_columns file_name env with
  | .ok r => .ok r
  | .error e => .error (.http ⟨500, ofString ("Database operation failed: ") ++ strOfExc e⟩)

/-- The body of `process_uploaded_file`'s outer `try` (src/main.py
lines 176-267), steps in source order. -/
def processTry (file_name : Str) (env : Env) : Except PyExc WebhookIngestResponse :=
  match validate_file file_name with
  | .error e => .error (.http e)
  | .ok file_extension =>
    match env.download with
    | .error m => .error (.other m)
    | .ok _ =>
      match parseStep file_extension env with
      | .error e => .error e
      | .ok df =>
        match env.ensure_schema with
        | .error e => .error (.http e)
        | .ok _ =>
          let table_name := table_name_of file_name env.timestamp
          let cleaned_columns := df.columns.map (fun col => sanitize_string col true)
          match env.engine with
          | .error e => .error (.http e)
          | .ok _ => dbBlock table_name df cleaned_columns file_name env

/-- `process_uploaded_file` (src/main.py lines 170-270): the outer
`except Exception` re-raises anything as
`HTTPException(500, f"File processing failed: " + str(e))`. -/
def process_uploaded_file (file_name : Str) (env : Env) :
    Except HTTPExcept WebhookIngestResponse :=
  match processTry file_name env with
  | .ok r => .ok r
  | .error e => .error ⟨500, ofString ("File processing failed: ") ++ strOfExc e⟩

/-- The `record` object of a storage webhook payload: the fields the
handler reads (`bucket_id`, `name`, `path_tokens`), each possibly absent
as Python `dict.get` returns `None`. -/
structure StorageRecord where
  bucket_id : Option Str
  name : Option Str
  path_tokens : List Str
  deriving DecidableEq

/-- `webhook_data.get("record", {})` on a payload with no record. -/
def emptyRecord : StorageRecord := ⟨none, none, []⟩

/-- A parsed webhook JSON body: the three fields `upload_webhook`
inspects. -/
structure WebhookPayload where
  type : Option Str
  table : Option Str
  record : Option StorageRecord
  deriving DecidableEq

def recordOf (wd : WebhookPayload) : StorageRecord := wd.record.getD emptyRecord

/-- The trigger condition of src/main.py lines 129-131: an INSERT event
on table "objects" whose record has `bucket_id == "raw"`. -/
def isRawInsert (wd : WebhookPayload) : Bool :=
  decide (wd.type = some (ofString ("INSERT"))
    ∧ wd.table = some (ofString ("objects"))
    ∧ (recordOf wd).bucket_id = some (ofString ("raw")))

/-- What the webhook endpoint returns on a non-exception path: the HTTP
status, the response's message field, and whether
`asyncio.create_task(process_uploaded_file ...)` was dispatched. -/
structure WebhookResponse where
  status : Nat
  message : Str
  ingestionStarted : Bool
  deriving DecidableEq

/-- The body of `upload_webhook`'s outer `try` (src/main.py lines
115-165).  The input is the outcome of `json.loads` on the request body:
`.error m` is a `json.JSONDecodeError` with message `m`.  A matching
INSERT with missing name or path raises `HTTPException(400, ...)`;
otherwise the task is dispatched and 202 returned; a non-matching
payload returns 200. -/
def upload_webhook_try (parsed : Except Str WebhookPayload) :
    Except HTTPExcept WebhookResponse :=
  match parsed with
  | .error m => .error ⟨400, ofString ("Invalid JSON payload: ") ++ m⟩
  | .ok wd =>
    if isRawInsert wd then
      let record := recordOf wd
      let file_name := record.name.getD []
      let file_path := joinSlash record.path_tokens
      if file_name = [] ∨ file_path = [] then
        .error ⟨400, ofString ("Missing file information")⟩
      else
        .ok ⟨202, ofString ("File processing started"), true⟩
    else
      .ok ⟨200, ofString ("Webhook received (not a raw bucket INSERT)"), false⟩

/-- `upload_webhook` (src/main.py lines 109-168): the outer
`except Exception` catches every exception raised in the `try` —
`fastapi.HTTPException` is an `Exception` subclass, so the handler's own
400s are caught too — and re-raises `HTTPException(500, f"Error: " +
str(e))`, which FastAPI turns into a 500 response. -/
def upload_webhook (parsed : Except Str WebhookPayload) :
    Except HTTPExcept WebhookResponse :=
  match upload_webhook_try parsed with
  | .ok r => .ok r
  | .error e => .error ⟨500, ofString ("Error: ") ++ strOfExc (.http e)⟩

/-- The HTTP outcome of the direct-upload endpoint: 200 with the success
payload, 400 with a detail, or 500 with a detail. -/
inductive IngestFileOutcome where
  | success (resp : WebhookIngestResponse)
  | clientError (detail : Str)
  | serverError (detail : Str)
  deriving DecidableEq

def IngestFileOutcome.status : IngestFileOutcome → Nat
  | .success _ => 200
  | .clientError _ => 400
  | .serverError _ => 500

/-- Modelled from the spec: the `POST /api/ingest-file` multipart-upload
endpoint is not in src/ (src/main.py holds only the webhook-triggered
revision of the flow).  Per spec section 6 it requires a `file` field
(400 when missing), rejects unsupported extensions with 400, returns
500 for any downstream parse/schema/database error with a message
embedding the underlying cause, and on success returns 200 with
`message, table_name, rows_processed, columns, file_name,
verified_rows`; per sections 4.3-4.5 it parses csv with `read_csv` and
xlsx/xls with spreadsheet decoding, and derives the table name and
sanitized columns exactly as the pipeline in src does.  Per sections 3,
4.4, 4.5 and 8 the write is verified against the parsed row count:
zero rows written — the empty-CSV case included — is total failure and
reported as failure, while a non-zero count yields the 200 payload, a
mismatched non-zero count being the partial state visible in
`verified_rows` versus `rows_processed`.  The `source` field marks
which entry point built the payload. -/
def ingest_file (file : Option Str) (env : Env) : IngestFileOutcome :=
  match file with
  | none => .clientError (ofString ("No file provided"))
  | some file_name =>
    match validate_file file_name with
    | .error e => .clientError e.detail
    | .ok file_extension =>
      match (if file_extension = csvExt then env.read_csv else env.read_excel) with
      | .error m => .serverError (ofString ("Error processing file: ") ++ m)
      | .ok df =>
        match env.ensure_schema with
        | .error e => .serverError (ofString ("Error processing file: ") ++ e.detail)
        | .ok _ =>
          match env.to_sql with
          | .error m => .serverError (ofString ("Error processing file: ") ++ m)
          | .ok result =>
            if result = 0 then
              .serverError (ofString ("File processing failed: zero rows written to ")
                ++ table_name_of file_name env.timestamp)
            else
              .success
                { message := ofString ("File ingested successfully")
                  table_name := table_name_of file_name env.timestamp
                  rows_processed := df.nrows
                  columns := df.columns.map (fun col => sanitize_string col true)
                  file_name := file_name
                  verified_rows := result
                  source := ofString ("upload") }

/-- No two adjacent underscores. -/
def noDD (a b : Nat) : Prop := ¬(a = 95 ∧ b = 95)

/-- The sanitizer before optional lowercasing. -/
def sanitizedCore (s : Str) : Str :=
  stripUnderscores (collapseUnderscores (replaceNonAlnum s))

/-! ## Concrete inputs for witnesses and counterexamples -/

/-- An ingestion of a header-only CSV: the parse yields 0 data rows, the
bulk write of an empty frame reports 0 (pandas `SQLTable.insert` returns
0 when the frame has no rows), everything else succeeds. -/
def envEmptyCsv : Env :=
  { download := .ok (), read_csv := .ok ⟨0, [ofString ("col1")]⟩,
    read_excel := .error (ofString ("unused")),
    ensure_schema := .ok (), engine := .ok (),
    timestamp := ofString ("20240101_120000"), to_sql := .ok 0 }

/-- An ingestion of a 3-row CSV whose bulk write reports 0 rows. -/
def envZeroOfThree : Env :=
  { download := .ok (), read_csv := .ok ⟨3, [ofString ("col1")]⟩,
    read_excel := .error (ofString ("unused")),
    ensure_schema := .ok (), engine := .ok (),
    timestamp := ofString ("20240101_120000"), to_sql := .ok 0 }

/-- An ingestion of an xls file: the storage download succeeds and a
spreadsheet parse is available, so any rejection is the pipeline's own. -/
def envXlsFile : Env :=
  { download := .ok (), read_csv := .error (ofString ("unused")),
    read_excel := .ok ⟨2, [ofString ("a")]⟩,
    ensure_schema := .ok (), engine := .ok (),
    timestamp := ofString ("20240101_120000"), to_sql := .ok 2 }

/-- An ingestion of a 3-row CSV whose bulk write reports only 2 rows. -/
def envTwoOfThree : Env :=
  { download := .ok (), read_csv := .ok ⟨3, [ofString ("First Name"), ofString ("e-mail")]⟩,
    read_excel := .error (ofString ("unused")),
    ensure_schema := .ok (), engine := .ok (),
    timestamp := ofString ("20240101_120000"), to_sql := .ok 2 }

/-- A fully successful 2-row CSV ingestion for the upload endpoint. -/
def envUploadOk : Env :=
  { download := .ok (), read_csv := .ok ⟨2, [ofString ("First Name")]⟩,
    read_excel := .error (ofString ("unused")),
    ensure_schema := .ok (), engine := .ok (),
    timestamp := ofString ("20240101_120000"), to_sql := .ok 2 }

/-- A storage INSERT into the raw bucket whose record has no `name`. -/
def insertMissingName : WebhookPayload :=
  ⟨some (ofString ("INSERT")), some (ofString ("objects")),
   some ⟨some (ofString ("raw")), none, [ofString ("f.csv")]⟩⟩

/-- A storage UPDATE event on the raw bucket: not an INSERT. -/
def updatePayload : WebhookPayload :=
  ⟨some (ofString ("UPDATE")), some (ofString ("objects")),
   some ⟨some (ofString ("raw")), some (ofString ("f.csv")), [ofString ("f.csv")]⟩⟩

/-! ## Sanitizer lemmas -/

theorem isSanitaryChar_iff (c : Nat) :
    isSanitaryChar c = true ↔
      (97 ≤ c ∧ c ≤ 122) ∨ (65 ≤ c ∧ c ≤ 90) ∨ (48 ≤ c ∧ c ≤ 57) ∨ c = 95 := by
  simp [isSanitaryChar, isAlnumChar, or_assoc]

theorem toLowerChar_sanitary {c : Nat} (h : isSanitaryChar c = true) :
    isSanitaryChar (toLowerChar c) = true := by
  rw [isSanitaryChar_iff] at h ⊢
  unfold toLowerChar
  split <;> omega

theorem toLowerChar_eq_95 {c : Nat} : toLowerChar c = 95 ↔ c = 95 := by
  unfold toLowerChar
  split <;> omega

theorem toLowerChar_idem (c : Nat) : toLowerChar (toLowerChar c) = toLowerChar c := by
  by_cases h : 65 ≤ c ∧ c ≤ 90
  · have h1 : toLowerChar c = c + 32 := by simp [toLowerChar, h]
    have h32 : ¬(65 ≤ c + 32 ∧ c + 32 ≤ 90) := by omega
    rw [h1]
    unfold toLowerChar
    rw [if_neg h32]
  · simp [toLowerChar, h]

theorem mem_replaceNonAlnum {c : Nat} {l : Str} (h : c ∈ replaceNonAlnum l) :
    isSanitaryChar c = true := by
  simp only [replaceNonAlnum, List.mem_map] at h
  obtain ⟨a, _, rfl⟩ := h
  cases hA : isAlnumChar a with
  | true => simp [isSanitaryChar, hA]
  | false =>
    simp only [hA, Bool.false_eq_true, if_false]
    decide

theorem head?_collapse (l : Str) : (collapseUnderscores l).head? = l.head? := by
  induction l with
  | nil => rfl
  | cons c rest ih =>
    cases rest with
    | nil => rfl
    | cons d rest' =>
      by_cases h : c = 95 ∧ d = 95
      · simp only [collapseUnderscores, if_pos h]
        rw [ih]
        simp [h.1, h.2]
      · simp [collapseUnderscores, if_neg h]

theorem mem_collapse {c : Nat} {l : Str} (h : c ∈ collapseUnderscores l) : c ∈ l := by
  induction l with
  | nil => exact absurd h (by simp [collapseUnderscores])
  | cons a rest ih =>
    cases rest with
    | nil => exact h
    | cons d rest' =>
      by_cases hud : a = 95 ∧ d = 95
      · simp only [collapseUnderscores, if_pos hud] at h
        exact List.mem_cons_of_mem a (ih h)
      · simp only [collapseUnderscores, if_neg hud, List.mem_cons] at h
        rcases h with rfl | h
        · exact List.mem_cons_self _ _
        · exact List.mem_cons_of_mem a (ih h)

theorem chain'_collapse (l : Str) : List.Chain' noDD (collapseUnderscores l) := by
  induction l with
  | nil => simp [collapseUnderscores]
  | cons c rest ih =>
    cases rest with
    | nil => simp [collapseUnderscores]
    | cons d rest' =>
      by_cases h : c = 95 ∧ d = 95
      · simpa only [collapseUnderscores, if_pos h] using ih
      · simp only [collapseUnderscores, if_neg h]
        rw [List.chain'_cons']
        refine ⟨?_, ih⟩
        intro b hb
        rw [head?_collapse] at hb
        simp only [List.head?_cons, Option.mem_def, Option.some.injEq] at hb
        subst hb
        exact fun hc => h hc

theorem head?_dropWhile_not (p : Nat → Bool) (l : Str) {c : Nat}
    (h : (l.dropWhile p).head? = some c) : p c = false := by
  induction l with
  | nil => simp [List.dropWhile] at h
  | cons a rest ih =>
    cases hpa : p a with
    | true =>
      rw [List.dropWhile_cons, if_pos (by simp [hpa])] at h
      exact ih h
    | false =>
      rw [List.dropWhile_cons, if_neg (by simp [hpa])] at h
      simp only [List.head?_cons, Option.some.injEq] at h
      subst h
      exact hpa

theorem dropWhile_eq_self_of_head? (p : Nat → Bool) (l : Str)
    (h : ∀ c, l.head? = some c → p c = false) : l.dropWhile p = l := by
  cases l with
  | nil => rfl
  | cons a rest =>
    have := h a rfl
    rw [List.dropWhile_cons, if_neg (by simp [this])]

theorem chain'_dropWhile {r : Nat → Nat → Prop} (p : Nat → Bool) {l : Str}
    (h : List.Chain' r l) : List.Chain' r (l.dropWhile p) := by
  induction l with
  | nil => simp
  | cons a rest ih =>
    cases hpa : p a with
    | true =>
      rw [List.dropWhile_cons, if_pos (by simp [hpa])]
      exact ih h.tail
    | false =>
      rw [List.dropWhile_cons, if_neg (by simp [hpa])]
      exact h

theorem getLast?_dropWhile (p : Nat → Bool) (l : Str) :
    l.dropWhile p = [] ∨ (l.dropWhile p).getLast? = l.getLast? := by
  induction l with
  | nil => exact .inl rfl
  | cons a rest ih =>
    cases hpa : p a with
    | false =>
      rw [List.dropWhile_cons, if_neg (by simp [hpa])]
      exact .inr rfl
    | true =>
      rw [List.dropWhile_cons, if_pos (by simp [hpa])]
      cases rest with
      | nil => exact .inl rfl
      | cons b rest' =>
        rcases ih with h | h
        · exact .inl h
        · exact .inr (h.trans (List.getLast?_cons_cons ..).symm)

theorem chain'_reverse_of_symm {r : Nat → Nat → Prop}
    (hs : ∀ a b, r a b → r b a) {l : Str} (h : List.Chain' r l) :
    List.Chain' r l.reverse := by
  rw [List.chain'_reverse]
  exact h.imp (fun a b hab => hs a b hab)

theorem mem_dropWhile {p : Nat → Bool} {c : Nat} {l : Str}
    (h : c ∈ l.dropWhile p) : c ∈ l :=
  (List.dropWhile_sublist p).mem h

theorem mem_strip {c : Nat} {l : Str} (h : c ∈ stripUnderscores l) : c ∈ l := by
  unfold stripUnderscores at h
  rw [List.mem_reverse] at h
  have h2 := mem_dropWhile h
  rw [List.mem_reverse] at h2
  exact mem_dropWhile h2

theorem head?_strip (l : Str) : (stripUnderscores l).head? ≠ some 95 := by
  unfold stripUnderscores
  intro h
  rw [List.head?_reverse] at h
  rcases getLast?_dropWhile (fun c => c == 95) (l.dropWhile (fun c => c == 95)).reverse
      with hnil | hlast
  · rw [hnil] at h
    simp at h
  · rw [hlast, List.getLast?_reverse] at h
    have := head?_dropWhile_not (fun c => c == 95) l h
    simp at this

theorem getLast?_strip (l : Str) : (stripUnderscores l).getLast? ≠ some 95 := by
  unfold stripUnderscores
  intro h
  rw [List.getLast?_reverse] at h
  have := head?_dropWhile_not (fun c => c == 95)
    (l.dropWhile (fun c => c == 95)).reverse h
  simp at this

theorem chain'_strip {l : Str} (h : List.Chain' noDD l) :
    List.Chain' noDD (stripUnderscores l) := by
  unfold stripUnderscores
  have hs : ∀ a b, noDD a b → noDD b a := fun a b hab hc => hab ⟨hc.2, hc.1⟩
  exact chain'_reverse_of_symm hs
    (chain'_dropWhile _ (chain'_reverse_of_symm hs (chain'_dropWhile _ h)))

theorem sanitize_string_eq (s : Str) (b : Bool) :
    sanitize_string s b = if b then toLowerStr (sanitizedCore s) else sanitizedCore s := rfl

theorem core_props (s : Str) :
    (∀ c ∈ sanitizedCore s, isSanitaryChar c = true)
    ∧ (sanitizedCore s).head? ≠ some 95
    ∧ (sanitizedCore s).getLast? ≠ some 95
    ∧ List.Chain' noDD (sanitizedCore s) := by
  refine ⟨?_, head?_strip _, getLast?_strip _, chain'_strip (chain'_collapse _)⟩
  intro c hc
  exact mem_replaceNonAlnum (mem_collapse (mem_strip hc))

/-- Soundness of the sanitizer, both lowercasing settings: every output
character is in `[A-Za-z0-9_]`, the output neither starts nor ends with
an underscore, and no two consecutive output characters are both
underscores. -/
theorem sanitize_props (s : Str) (b : Bool) :
    (∀ c ∈ sanitize_string s b, isSanitaryChar c = true)
    ∧ (sanitize_string s b).head? ≠ some 95
    ∧ (sanitize_string s b).getLast? ≠ some 95
    ∧ List.Chain' noDD (sanitize_string s b) := by
  obtain ⟨m1, m2, m3, m4⟩ := core_props s
  cases b with
  | false => exact ⟨m1, m2, m3, m4⟩
  | true =>
    have he : sanitize_string s true = toLowerStr (sanitizedCore s) := rfl
    rw [he]
    refine ⟨?_, ?_, ?_, ?_⟩
    · intro c hc
      simp only [toLowerStr, List.mem_map] at hc
      obtain ⟨a, ha, rfl⟩ := hc
      exact toLowerChar_sanitary (m1 a ha)
    · intro h
      rw [toLowerStr, List.head?_map] at h
      cases hh : (sanitizedCore s).head? with
      | none => rw [hh] at h; simp at h
      | some a =>
        rw [hh] at h
        simp only [Option.map_some', Option.some.injEq] at h
        exact m2 (by rw [hh, toLowerChar_eq_95.mp h])
    · intro h
      rw [toLowerStr, List.getLast?_map] at h
      cases hh : (sanitizedCore s).getLast? with
      | none => rw [hh] at h; simp at h
      | some a =>
        rw [hh] at h
        simp only [Option.map_some', Option.some.injEq] at h
        exact m3 (by rw [hh, toLowerChar_eq_95.mp h])
    · rw [toLowerStr, List.chain'_map]
      refine m4.imp ?_
      intro a b hab hc
      exact hab ⟨toLowerChar_eq_95.mp hc.1, toLowerChar_eq_95.mp hc.2⟩

theorem replace_fixed {l : Str} (h : ∀ c ∈ l, isSanitaryChar c = true) :
    replaceNonAlnum l = l := by
  induction l with
  | nil => rfl
  | cons a rest ih =>
    have ha := h a (List.mem_cons_self ..)
    have hr := ih (fun c hc => h c (List.mem_cons_of_mem _ hc))
    simp only [replaceNonAlnum, List.map_cons]
    refine congrArg₂ List.cons ?_ hr
    cases hA : isAlnumChar a with
    | true => simp
    | false =>
      have h95 : a = 95 := by
        simp only [isSanitaryChar, hA, Bool.false_or, decide_eq_true_eq] at ha
        exact ha
      simp [h95]

theorem collapse_fixed {l : Str} (h : List.Chain' noDD l) : collapseUnderscores l = l := by
  induction l with
  | nil => rfl
  | cons a rest ih =>
    cases rest with
    | nil => rfl
    | cons d rest' =>
      have hnd : ¬(a = 95 ∧ d = 95) := (List.chain'_cons'.mp h).1 d rfl
      simp only [collapseUnderscores, if_neg hnd]
      rw [ih h.tail]

theorem strip_fixed {l : Str} (h1 : l.head? ≠ some 95) (h2 : l.getLast? ≠ some 95) :
    stripUnderscores l = l := by
  unfold stripUnderscores
  have e1 : l.dropWhile (fun c => c == 95) = l := by
    apply dropWhile_eq_self_of_head?
    intro c hc
    rcases eq_or_ne c 95 with rfl | hne
    · exact absurd hc h1
    · simp [hne]
  rw [e1]
  have e2 : l.reverse.dropWhile (fun c => c == 95) = l.reverse := by
    apply dropWhile_eq_self_of_head?
    intro c hc
    rw [List.head?_reverse] at hc
    rcases eq_or_ne c 95 with rfl | hne
    · exact absurd hc h2
    · simp [hne]
  rw [e2, List.reverse_reverse]

theorem toLowerStr_fixed {l : Str} (h : ∀ c ∈ l, toLowerChar c = c) : toLowerStr l = l := by
  induction l with
  | nil => rfl
  | cons a rest ih =>
    simp only [toLowerStr, List.map_cons] at ih ⊢
    rw [h a (List.mem_cons_self ..), ih (fun c hc => h c (List.mem_cons_of_mem _ hc))]

theorem sanitizedCore_fixed {l : Str}
    (hsan : ∀ c ∈ l, isSanitaryChar c = true)
    (hh : l.head? ≠ some 95) (hl : l.getLast? ≠ some 95)
    (hch : List.Chain' noDD l) : sanitizedCore l = l := by
  unfold sanitizedCore
  rw [replace_fixed hsan, collapse_fixed hch, strip_fixed hh hl]

theorem sanitize_lower_fixed (s : Str) :
    ∀ c ∈ sanitize_string s true, toLowerChar c = c := by
  intro c hc
  have he : sanitize_string s true = toLowerStr (sanitizedCore s) := rfl
  rw [he, toLowerStr, List.mem_map] at hc
  obtain ⟨a, _, rfl⟩ := hc
  exact toLowerChar_idem a

theorem toLowerChar_eq_46 {c : Nat} : toLowerChar c = 46 ↔ c = 46 := by
  unfold toLowerChar
  split <;> omega

theorem splitOn_no_sep {sep : Nat} {l : Str} (h : ∀ c ∈ l, c ≠ sep) :
    splitOn sep l = [l] := by
  induction l with
  | nil => rfl
  | cons c rest ih =>
    have hc : c ≠ sep := h c (List.mem_cons_self ..)
    have hr := ih (fun a ha => h a (List.mem_cons_of_mem _ ha))
    simp only [splitOn, hr, if_neg hc]

theorem processTry_reaches_db (fn ext : Str) (env : Env) (df : DataFrame)
    (hv : validate_file fn = .ok ext)
    (hd : env.download = .ok ())
    (hp : parseStep ext env = .ok df)
    (hs : env.ensure_schema = .ok ())
    (he : env.engine = .ok ()) :
    processTry fn env = dbBlock (table_name_of fn env.timestamp) df
      (df.columns.map (fun col => sanitize_string col true)) fn env := by
  simp only [processTry, hv, hd, hp, hs, he]

/-! ## The claims -/

/-- C4: for every input string (any list of code points) and either
lowercasing setting, the output of `sanitize_string` contains only
characters in `[A-Za-z0-9_]`, never starts or ends with `_` (code point
95), and never contains two consecutive underscores; as a Lean function
over every `Str` it is total by construction, so every input yields an
output (possibly empty) without failing. -/
theorem sanitize_string_output_sanitary (s : Str) (b : Bool) :
    (∀ c ∈ sanitize_string s b, isSanitaryChar c = true)
    ∧ (sanitize_string s b).head? ≠ some 95
    ∧ (sanitize_string s b).getLast? ≠ some 95
    ∧ List.Chain' noDD (sanitize_string s b) :=
  sanitize_props s b

/-- C5: `sanitize_string` is idempotent — sanitizing an already
sanitized string, with the same lowercasing setting on both
applications, returns it unchanged. -/
theorem sanitize_string_idempotent (s : Str) (b : Bool) :
    sanitize_string (sanitize_string s b) b = sanitize_string s b := by
  obtain ⟨h1, h2, h3, h4⟩ := sanitize_props s b
  have hcore : sanitizedCore (sanitize_string s b) = sanitize_string s b :=
    sanitizedCore_fixed h1 h2 h3 h4
  cases b with
  | false =>
    show sanitizedCore (sanitize_string s false) = sanitize_string s false
    exact hcore
  | true =>
    show toLowerStr (sanitizedCore (sanitize_string s true)) = sanitize_string s true
    rw [hcore]
    exact toLowerStr_fixed (sanitize_lower_fixed s)

/-- C6: the derived table name is exactly
`raw_` ++ sanitized filename (the last `/`-component, extension
included, sanitized with lowercasing) ++ `_` ++ timestamp; in
particular ingesting `Sales Report.xlsx` at any timestamp yields
`raw_sales_report_xlsx_` ++ timestamp. -/
theorem table_name_raw_sanitized_timestamp (fn ts : Str) :
    table_name_of fn ts
      = ofString ("raw_") ++ sanitize_string (filename_with_ext fn) true
          ++ ofString ("_") ++ ts
    ∧ table_name_of (ofString ("Sales Report.xlsx")) ts
      = ofString ("raw_sales_report_xlsx_") ++ ts :=
  ⟨rfl, rfl⟩

/-- C1 counterexample: ingesting a header-only CSV — 0 parsed rows, a
bulk write reporting 0 rows — is returned as the ordinary success
payload with `verified_rows = 0`, because `result == len(df)` is checked
before the zero test; it is not classified as failure. -/
theorem empty_csv_reported_success :
    process_uploaded_file (ofString ("empty.csv")) envEmptyCsv = .ok
      { message := ofString ("File ingested successfully"),
        table_name := ofString ("raw_empty_csv_20240101_120000"),
        rows_processed := 0, columns := [ofString ("col1")],
        file_name := ofString ("empty.csv"), verified_rows := 0,
        source := ofString ("webhook") } := rfl

/-- C1 (amended): a bulk write reporting zero rows is classified as
failure exactly when the parsed row count is non-zero; when the parsed
row count is also zero (empty CSV) the `result == len(df)` branch wins
and the ingestion is reported as success with `verified_rows = 0`. -/
theorem zero_written_classification (fn ext : Str) (env : Env) (df : DataFrame)
    (hv : validate_file fn = .ok ext)
    (hd : env.download = .ok ())
    (hp : parseStep ext env = .ok df)
    (hs : env.ensure_schema = .ok ())
    (he : env.engine = .ok ())
    (hw : env.to_sql = .ok 0) :
    (df.nrows ≠ 0 → ∃ d, process_uploaded_file fn env = .error ⟨500, d⟩)
    ∧ (df.nrows = 0 → process_uploaded_file fn env = .ok
        { message := ofString ("File ingested successfully"),
          table_name := table_name_of fn env.timestamp,
          rows_processed := df.nrows,
          columns := df.columns.map (fun col => sanitize_string col true),
          file_name := fn, verified_rows := 0,
          source := ofString ("webhook") }) := by
  have hbody := processTry_reaches_db fn ext env df hv hd hp hs he
  constructor
  · intro h0
    have h1 : dbTry (table_name_of fn env.timestamp) df
        (df.columns.map (fun col => sanitize_string col true)) fn env
        = .error (.http ⟨500, ofString ("File ") ++ fn
            ++ ofString (" processing failed. Table: ")
            ++ table_name_of fn env.timestamp⟩) := by
      simp only [dbTry, hw]
      rw [if_neg (by omega), if_neg (by simp)]
    refine ⟨ofString ("File processing failed: ") ++ strOfExc (.http ⟨500,
      ofString ("Database operation failed: ") ++ strOfExc (.http ⟨500,
        ofString ("File ") ++ fn ++ ofString (" processing failed. Table: ")
          ++ table_name_of fn env.timestamp⟩)⟩), ?_⟩
    simp only [process_uploaded_file, hbody, dbBlock, h1]
  · intro h0
    have h1 : dbTry (table_name_of fn env.timestamp) df
        (df.columns.map (fun col => sanitize_string col true)) fn env
        = .ok { message := ofString ("File ingested successfully"),
                table_name := table_name_of fn env.timestamp,
                rows_processed := df.nrows,
                columns := df.columns.map (fun col => sanitize_string col true),
                file_name := fn, verified_rows := 0,
                source := ofString ("webhook") } := by
      simp only [dbTry, hw]
      rw [if_pos h0.symm]
    simp only [process_uploaded_file, hbody, dbBlock, h1]

/-- C1 witness: the amended classification at concrete inputs — a
3-row CSV with a zero-row write fails with a 500, and a header-only
CSV with a zero-row write is returned as success. -/
theorem zero_written_classification_witness :
    (∃ d, process_uploaded_file (ofString ("data.csv")) envZeroOfThree = .error ⟨500, d⟩)
    ∧ process_uploaded_file (ofString ("empty.csv")) envEmptyCsv = .ok
        { message := ofString ("File ingested successfully"),
          table_name := ofString ("raw_empty_csv_20240101_120000"),
          rows_processed := 0, columns := [ofString ("col1")],
          file_name := ofString ("empty.csv"), verified_rows := 0,
          source := ofString ("webhook") } := by
  constructor
  · exact (zero_written_classification (ofString ("data.csv")) csvExt envZeroOfThree
      ⟨3, [ofString ("col1")]⟩ rfl rfl rfl rfl rfl rfl).1 (by decide)
  · exact (zero_written_classification (ofString ("empty.csv")) csvExt envEmptyCsv
      ⟨0, [ofString ("col1")]⟩ rfl rfl rfl rfl rfl rfl).2 rfl

/-- C9: when the bulk write reports a non-zero count different from the
parsed row count, `process_uploaded_file` raises nothing: it returns the
ordinary success payload — message `File ingested successfully` — whose
`verified_rows` is the reported count while `rows_processed` is the
parsed count, so the partial state shows only in those two fields. -/
theorem mismatched_nonzero_write_success (fn ext : Str) (env : Env) (df : DataFrame)
    (m : Nat)
    (hv : validate_file fn = .ok ext)
    (hd : env.download = .ok ())
    (hp : parseStep ext env = .ok df)
    (hs : env.ensure_schema = .ok ())
    (he : env.engine = .ok ())
    (hw : env.to_sql = .ok m)
    (hm0 : m ≠ 0) (hmn : m ≠ df.nrows) :
    process_uploaded_file fn env = .ok
      { message := ofString ("File ingested successfully"),
        table_name := table_name_of fn env.timestamp,
        rows_processed := df.nrows,
        columns := df.columns.map (fun col => sanitize_string col true),
        file_name := fn, verified_rows := m,
        source := ofString ("webhook") } := by
  have hbody := processTry_reaches_db fn ext env df hv hd hp hs he
  have h1 : dbTry (table_name_of fn env.timestamp) df
      (df.columns.map (fun col => sanitize_string col true)) fn env
      = .ok { message := ofString ("File ingested successfully"),
              table_name := table_name_of fn env.timestamp,
              rows_processed := df.nrows,
              columns := df.columns.map (fun col => sanitize_string col true),
              file_name := fn, verified_rows := m,
              source := ofString ("webhook") } := by
    simp only [dbTry, hw]
    rw [if_neg hmn, if_pos hm0]
  simp only [process_uploaded_file, hbody, dbBlock, h1]

/-- C9 witness: a 3-row CSV whose bulk write reports 2 rows comes back
as the success payload with `rows_processed = 3` and
`verified_rows = 2`. -/
theorem mismatched_nonzero_write_success_witness :
    process_uploaded_file (ofString ("data.csv")) envTwoOfThree = .ok
      { message := ofString ("File ingested successfully"),
        table_name := ofString ("raw_data_csv_20240101_120000"),
        rows_processed := 3,
        columns := [ofString ("first_name"), ofString ("e_mail")],
        file_name := ofString ("data.csv"), verified_rows := 2,
        source := ofString ("webhook") } :=
  mismatched_nonzero_write_success (ofString ("data.csv")) csvExt envTwoOfThree
    ⟨3, [ofString ("First Name"), ofString ("e-mail")]⟩ 2
    rfl rfl rfl rfl rfl rfl (by decide) (by decide)

/-- C3: the validator accepts extension `xls`, but the parse step's
`else` branch then raises the unsupported-file-type `HTTPException`
instead of decoding the spreadsheet — so an `.xls` file that downloads
and would parse fine is rejected, surfaced by the outer handler as a
500 wrapping the 400 detail. -/
theorem xls_validated_but_unsupported_at_parse :
    validate_file (ofString ("data.xls")) = .ok xlsExt
    ∧ parseStep xlsExt envXlsFile = .error (.http ⟨400,
        ofString ("Unsupported file type. Please upload CSV or Excel files only.")⟩)
    ∧ process_uploaded_file (ofString ("data.xls")) envXlsFile = .error ⟨500,
        ofString ("File processing failed: 400: Unsupported file type. Please upload CSV or Excel files only.")⟩ :=
  ⟨rfl, rfl, rfl⟩

/-- C2: the webhook handler's own client-error `HTTPException(400)`s —
malformed JSON body, and a matching INSERT record with no file name —
are caught by the outer `except Exception` and re-raised as 500
`Error: 400: ...`, so the endpoint answers 500, not 4xx. -/
theorem webhook_client_errors_surface_as_500 :
    upload_webhook (.error (ofString ("Expecting value: line 1 column 1 (char 0)")))
      = .error ⟨500, ofString ("Error: 400: Invalid JSON payload: Expecting value: line 1 column 1 (char 0)")⟩
    ∧ upload_webhook (.ok insertMissingName)
      = .error ⟨500, ofString ("Error: 400: Missing file information")⟩ :=
  ⟨rfl, rfl⟩

/-- C7: any well-formed webhook payload that is not an INSERT on table
`objects` with `record.bucket_id = "raw"` gets the 200 passthrough
acknowledgment and no ingestion task is dispatched; contrapositively,
ingestion is only triggered by payloads matching all three conditions. -/
theorem non_matching_webhook_returns_200_no_ingestion (wd : WebhookPayload)
    (h : isRawInsert wd = false) :
    upload_webhook (.ok wd)
      = .ok ⟨200, ofString ("Webhook received (not a raw bucket INSERT)"), false⟩ := by
  simp [upload_webhook, upload_webhook_try, h]

/-- C7 witness: an UPDATE event on the raw bucket takes the passthrough
branch. -/
theorem non_matching_webhook_returns_200_no_ingestion_witness :
    upload_webhook (.ok updatePayload)
      = .ok ⟨200, ofString ("Webhook received (not a raw bucket INSERT)"), false⟩ :=
  non_matching_webhook_returns_200_no_ingestion updatePayload (by decide)

/-- C10: for a filename with no dot, `file_name.lower().split('.')[-1]`
is the entire lowercased filename, so a file literally named `csv`,
`xlsx` or `xls` (in any casing) passes validation and its parse is
attempted, while every other dotless filename is rejected by the
validator's client-error `HTTPException(400)`. -/
theorem dotless_filename_whole_name_is_extension (fn : Str)
    (hnd : ∀ c ∈ fn, c ≠ 46) :
    file_extension_of fn = toLowerStr fn
    ∧ (toLowerStr fn ∈ [csvExt, xlsxExt, xlsExt] →
        validate_file fn = .ok (toLowerStr fn))
    ∧ (fn ≠ [] → toLowerStr fn ∉ [csvExt, xlsxExt, xlsExt] →
        validate_file fn = .error ⟨400,
          ofString ("Unsupported file type: ") ++ toLowerStr fn
            ++ ofString (". Please upload CSV or Excel files only.")⟩) := by
  have hnd2 : ∀ c ∈ toLowerStr fn, c ≠ 46 := by
    intro c hc
    rw [toLowerStr, List.mem_map] at hc
    obtain ⟨a, ha, rfl⟩ := hc
    intro h46
    exact hnd a ha (toLowerChar_eq_46.mp h46)
  have hext : file_extension_of fn = toLowerStr fn := by
    unfold file_extension_of
    rw [splitOn_no_sep hnd2]
    rfl
  refine ⟨hext, ?_, ?_⟩
  · intro hmem
    have hne : fn ≠ [] := by
      intro h0
      rw [h0] at hmem
      exact absurd hmem (by decide)
    simp only [validate_file, if_neg hne, hext, if_pos hmem]
  · intro hne hnmem
    simp only [validate_file, if_neg hne, hext, if_neg hnmem]

/-- C10 witness: a dotless `XLSX` passes validation with extension
`xlsx`, and a dotless `data` is rejected with the 400 detail. -/
theorem dotless_filename_whole_name_is_extension_witness :
    validate_file (ofString ("XLSX")) = .ok (ofString ("xlsx"))
    ∧ validate_file (ofString ("data")) = .error ⟨400,
        ofString ("Unsupported file type: data. Please upload CSV or Excel files only.")⟩ := by
  constructor
  · exact (dotless_filename_whole_name_is_extension (ofString ("XLSX"))
      (by decide)).2.1 (by decide)
  · exact (dotless_filename_whole_name_is_extension (ofString ("data"))
      (by decide)).2.2 (by decide) (by decide)

/-- C8: the modelled `/api/ingest-file` endpoint returns 400
(clientError) when the `file` field is missing and whenever validation
rejects the name, 500 (serverError) for a downstream parse failure with
the cause embedded in the detail, 500 when the verified write count is
zero — the zero-rows-written total failure, which covers the empty-CSV
case — and on a csv ingestion whose write reports a non-zero count 200
(success) with the payload carrying message, table_name,
rows_processed, columns, file_name and verified_rows. -/
theorem ingest_file_contract (env : Env) (fn msg : Str) (df : DataFrame) (k : Nat) :
    (ingest_file none env = .clientError (ofString ("No file provided")))
    ∧ (∀ e, validate_file fn = .error e →
        ingest_file (some fn) env = .clientError e.detail)
    ∧ (validate_file fn = .ok csvExt → env.read_csv = .error msg →
        ingest_file (some fn) env
          = .serverError (ofString ("Error processing file: ") ++ msg))
    ∧ (validate_file fn = .ok csvExt → env.read_csv = .ok df →
        env.ensure_schema = .ok () → env.to_sql = .ok 0 →
        ingest_file (some fn) env = .serverError
          (ofString ("File processing failed: zero rows written to ")
            ++ table_name_of fn env.timestamp))
    ∧ (validate_file fn = .ok csvExt → env.read_csv = .ok df →
        env.ensure_schema = .ok () → env.to_sql = .ok k → k ≠ 0 →
        ingest_file (some fn) env = .success
          { message := ofString ("File ingested successfully"),
            table_name := table_name_of fn env.timestamp,
            rows_processed := df.nrows,
            columns := df.columns.map (fun col => sanitize_string col true),
            file_name := fn, verified_rows := k,
            source := ofString ("upload") }) := by
  have hc : (if csvExt = csvExt then env.read_csv else env.read_excel)
      = env.read_csv := if_pos rfl
  refine ⟨rfl, ?_, ?_, ?_, ?_⟩
  · intro e hv
    simp only [ingest_file, hv]
  · intro hv hcsv
    simp only [ingest_file, hv, hc, hcsv, if_true]
  · intro hv hcsv hs hw
    simp only [ingest_file, hv, hc, hcsv, hs, hw, if_true]
  · intro hv hcsv hs hw hk0
    simp only [ingest_file, hv, hc, hcsv, hs, hw, if_true]
    rw [if_neg hk0]

/-- C8 witness: the contract at concrete inputs — a missing file field
is a 400, a 2-row `report.csv` ingestion whose write reports 2 rows
succeeds with the full payload, and a header-only `empty.csv` whose
write reports 0 rows is reported as the zero-rows-written failure. -/
theorem ingest_file_contract_witness :
    ingest_file none envUploadOk = .clientError (ofString ("No file provided"))
    ∧ ingest_file (some (ofString ("report.csv"))) envUploadOk = .success
        { message := ofString ("File ingested successfully"),
          table_name := ofString ("raw_report_csv_20240101_120000"),
          rows_processed := 2, columns := [ofString ("first_name")],
          file_name := ofString ("report.csv"), verified_rows := 2,
          source := ofString ("upload") }
    ∧ ingest_file (some (ofString ("empty.csv"))) envEmptyCsv = .serverError
        (ofString ("File processing failed: zero rows written to raw_empty_csv_20240101_120000")) := by
  have h := ingest_file_contract envUploadOk (ofString ("report.csv"))
    (ofString ("unused")) ⟨2, [ofString ("First Name")]⟩ 2
  have h0 := ingest_file_contract envEmptyCsv (ofString ("empty.csv"))
    (ofString ("unused")) ⟨0, [ofString ("col1")]⟩ 0
  exact ⟨h.1, h.2.2.2.2 rfl rfl rfl rfl (by decide), h0.2.2.2.1 rfl rfl rfl rfl⟩
